import Mathlib

/-!
Verification of the mask-synthesis and visualization-orchestration core of
the Zephyr repository (src/util/image_mask.rs and src/custom/motorcycle.rs).

Modelling conventions:
* Rust `f32` arithmetic is modelled by exact rational arithmetic (ℚ); every
  constant of the source appears verbatim as a decimal literal.  The Rust
  cast `as i32` (truncation toward zero, used only on values that are
  nonnegative and far below the saturation bound in this pipeline) is
  modelled by `i32trunc`.
* The external crate functions `imageproc::drawing::draw_filled_ellipse_mut`
  and `imageproc::filter::gaussian_blur_f32` are not part of this
  repository; they are modelled from the spec (§4.2): the ellipse fill sets
  the interior of the axis-aligned ellipse to 255 and clips at the canvas
  bounds, the Gaussian blur is a convolution with a nonnegative finitely
  supported kernel (with replicated borders), rounded and clamped to
  [0,255].  The kernel (radius and weights) is kept as a parameter: every
  statement proved below holds for an arbitrary nonnegative kernel, hence
  in particular for the discretized Gaussian of standard deviation 15.0
  (or of any feather radius) used by the crate.
* The file system and the fallible external collaborators (image decode,
  image save, the Bedrock inpainting service) are modelled by an explicit
  environment of outcome functions and an explicit list of existing paths.
-/

namespace Zephyr

/-- Part categories, from `PartType` in src/util/image_mask.rs. -/
inductive PartType where
  | Exhaust
  | Seat
  | Handlebar
deriving DecidableEq

/-- Mask intensities, from `MaskIntensity` in src/util/image_mask.rs. -/
inductive MaskIntensity where
  | Minimal
  | Medium
  | Aggressive
deriving DecidableEq

/-- Normalized ellipse template: fractions of image width and height. -/
structure RegionTemplate where
  cx : ℚ
  cy : ℚ
  rx : ℚ
  ry : ℚ
deriving DecidableEq

/-- The per-category normalized ellipse constants, inlined per match arm in
`create_part_mask` (src/util/image_mask.rs lines 41-87). -/
def resolveTemplate : PartType → RegionTemplate
  | PartType.Exhaust => ⟨0.5, 0.65, 0.35, 0.25⟩
  | PartType.Seat => ⟨0.5, 0.45, 0.15, 0.12⟩
  | PartType.Handlebar => ⟨0.4, 0.25, 0.2, 0.12⟩

/-- The `let scale = match intensity` binding of `create_part_mask`
(src/util/image_mask.rs lines 33-37). -/
def intensityScale : MaskIntensity → ℚ
  | MaskIntensity.Minimal => 0.8
  | MaskIntensity.Medium => 1.0
  | MaskIntensity.Aggressive => 1.2

/-- Rust `as i32` on an `f32` value: truncation toward zero (saturation is
never reached at the magnitudes of this pipeline). -/
def i32trunc (q : ℚ) : ℤ :=
  if q < 0 then -(Int.floor (-q)) else Int.floor q

/-- A single-channel raster; `pixel x y` is the u8 value (0..255) at
column x, row y (coordinates outside the canvas are irrelevant: every
consumer below guards its accesses by the dimensions). -/
structure Mask where
  width : ℕ
  height : ℕ
  pixel : ℕ → ℕ → ℕ

/-- Modelled from the spec: membership in the filled axis-aligned ellipse
drawn by the external `draw_filled_ellipse_mut` with center (cx, cy) and
radii (rw, rh) — spec §4.2 step 3 ("Fill the ellipse interior with value
255").  The product form avoids division; the two bound conjuncts pin the
degenerate (zero-radius) cases to the segment/center. -/
def insideEllipse (cx cy rw rh px py : ℤ) : Bool :=
  let dx := px - cx
  let dy := py - cy
  decide (dx ^ 2 * rh ^ 2 + dy ^ 2 * rw ^ 2 ≤ rw ^ 2 * rh ^ 2) &&
    decide (dx ^ 2 ≤ rw ^ 2) && decide (dy ^ 2 ≤ rh ^ 2)

/-- Modelled from the spec: a fresh width×height canvas initialized to 0
with the ellipse interior set to 255, clipped at the canvas bounds
(spec §4.2 steps 1-3). -/
def fillEllipse (w h : ℕ) (cx cy rw rh : ℤ) : Mask :=
  ⟨w, h, fun x y =>
    if x < w ∧ y < h ∧ insideEllipse cx cy rw rh (x : ℤ) (y : ℤ) then 255 else 0⟩

/-- Border-replicating pixel access used by the blur model: coordinates are
clamped into the canvas; an empty canvas reads as 0. -/
def pixelClamped (m : Mask) (x y : ℤ) : ℕ :=
  if m.width = 0 ∨ m.height = 0 then 0
  else m.pixel (min x ((m.width : ℤ) - 1)).toNat (min y ((m.height : ℤ) - 1)).toNat

/-- Clamp a rounded accumulator into the u8 range (the accumulator is
nonnegative for nonnegative kernels, so only the upper clamp binds). -/
def clamp255 (z : ℤ) : ℕ := min 255 z.toNat

/-- Round a rational accumulator to an integer (half up). -/
def roundQ (q : ℚ) : ℤ := Int.floor (q + 1 / 2)

/-- Modelled from the spec: the external `gaussian_blur_f32`, as a
convolution with a kernel of radius R and weight function k (spec §4.2
steps 4-5: blur, dimensions unchanged, values clamped to [0,255]).  All
theorems below hold for every nonnegative kernel, in particular for the
discretized Gaussian actually used by the crate. -/
def gaussianBlurModel (R : ℕ) (k : ℤ → ℤ → ℚ) (m : Mask) : Mask :=
  ⟨m.width, m.height, fun x y =>
    clamp255 (roundQ ((Finset.range (2 * R + 1)).sum (fun dx =>
      (Finset.range (2 * R + 1)).sum (fun dy =>
        k ((dx : ℤ) - R) ((dy : ℤ) - R) *
          (pixelClamped m ((x : ℤ) + dx - R) ((y : ℤ) + dy - R) : ℚ)))))⟩

/-- The absolute ellipse center of `create_part_mask`:
`x = (image_width as f32 * cx) as i32`, `y = (image_height as f32 * cy) as i32`
(src/util/image_mask.rs lines 44-45, 59-60, 74-75).  The intensity scale is
not applied to the center in the source. -/
def partCenter (w h : ℕ) (c : PartType) : ℤ × ℤ :=
  (i32trunc ((w : ℚ) * (resolveTemplate c).cx),
   i32trunc ((h : ℚ) * (resolveTemplate c).cy))

/-- The absolute ellipse radii of `create_part_mask`:
`width = (image_width as f32 * rx * scale) as i32` and likewise for height
(src/util/image_mask.rs lines 46-47, 61-62, 76-77). -/
def partRadii (w h : ℕ) (c : PartType) (i : MaskIntensity) : ℤ × ℤ :=
  (i32trunc ((w : ℚ) * (resolveTemplate c).rx * intensityScale i),
   i32trunc ((h : ℚ) * (resolveTemplate c).ry * intensityScale i))

/-- The mask produced by `create_part_mask`: ellipse fill then Gaussian
blur (σ = 15.0 in the source; kernel abstracted, see the header). -/
def partMask (R : ℕ) (k : ℤ → ℤ → ℚ) (w h : ℕ) (c : PartType)
    (i : MaskIntensity) : Mask :=
  gaussianBlurModel R k
    (fillEllipse w h (partCenter w h c).1 (partCenter w h c).2
      (partRadii w h c i).1 (partRadii w h c i).2)

/-- Error kinds surfaced by the pipeline (the source uses `anyhow::Result`;
these are the fallible operations that occur). -/
inductive PipelineError where
  | imageIOError
  | serviceError
deriving DecidableEq

/-- `MaskGenerator::create_part_mask` (src/util/image_mask.rs lines 25-93):
every path of the source body ends in `Ok(blurred_mask)`. -/
def create_part_mask (R : ℕ) (k : ℤ → ℤ → ℚ) (w h : ℕ) (c : PartType)
    (i : MaskIntensity) : Except PipelineError Mask :=
  Except.ok (partMask R k w h c i)

/-- `MaskGenerator::create_custom_mask` (src/util/image_mask.rs lines
121-153): ellipse fill from literal normalized bounds, then blur only when
`feather_radius > 0.0`. -/
def create_custom_mask (R : ℕ) (k : ℤ → ℤ → ℚ) (w h : ℕ)
    (region_x region_y region_width region_height feather_radius : ℚ) :
    Except PipelineError Mask :=
  let mask := fillEllipse w h (i32trunc ((w : ℚ) * region_x))
    (i32trunc ((h : ℚ) * region_y)) (i32trunc ((w : ℚ) * region_width))
    (i32trunc ((h : ℚ) * region_height))
  if feather_radius > 0 then Except.ok (gaussianBlurModel R k mask)
  else Except.ok mask

/-- A three-channel raster. -/
structure RgbMask where
  width : ℕ
  height : ℕ
  pixel : ℕ → ℕ → ℕ × ℕ × ℕ

/-- `MaskGenerator::to_rgb_mask` (src/util/image_mask.rs lines 108-118):
replicate the gray value into all three channels. -/
def to_rgb_mask (m : Mask) : RgbMask :=
  ⟨m.width, m.height, fun x y => (m.pixel x y, m.pixel x y, m.pixel x y)⟩

/-- Mask coverage area: number of canvas pixels whose value exceeds 128
(spec §8). -/
def coverage (m : Mask) : ℕ :=
  (((Finset.range m.width).product (Finset.range m.height)).filter
    (fun p => 128 < m.pixel p.1 p.2)).card

/-- The `{:?}` (Debug) rendering of a `PartType` value, used to build the
temporary mask path (src/custom/motorcycle.rs line 67). -/
def partTypeDebug : PartType → String
  | PartType.Exhaust => "Exhaust"
  | PartType.Seat => "Seat"
  | PartType.Handlebar => "Handlebar"

/-- `format!("temp_mask_\x7b:?\x7d.png", part_type)`
(src/custom/motorcycle.rs line 67). -/
def maskPathFor (c : PartType) : String :=
  "temp_mask_" ++ partTypeDebug c ++ ".png"

/-- The `let part_name = match part_type` binding
(src/custom/motorcycle.rs lines 71-75). -/
def partName : PartType → String
  | PartType.Exhaust => "exhaust system"
  | PartType.Seat => "seat"
  | PartType.Handlebar => "handlebars"

/-- The positive prompt built by `visualize_custom_part`
(src/custom/motorcycle.rs lines 77-84, with the string-literal line
continuations elided exactly as Rust does). -/
def positivePrompt (bikeDescription pname partDescription : String) : String :=
  bikeDescription ++ " style motorcycle with custom " ++ pname ++
    " installed, " ++ partDescription ++
    ", seamlessly integrated aftermarket part, maintaining original frame geometry and proportions, professional product photography, photorealistic, high detail, studio lighting, 8k"

/-- The fixed negative prompt of `visualize_custom_part`
(src/custom/motorcycle.rs lines 86-89). -/
def negativePromptText : String :=
  "different motorcycle model, changed body style, distorted proportions, unrealistic, blurry, low quality, cartoon, 3d render, wrong bike type, illustration"

/-- One invocation of the external inpainting collaborator
(`self.generator.inpaint(base, mask_path, prompt, Some(negative))`,
src/custom/motorcycle.rs lines 93-98). -/
structure InpaintCall where
  basePath : String
  maskPath : String
  prompt : String
  negativePrompt : String
deriving DecidableEq

/-- Outcomes of the external collaborators for one orchestration run.
`decode` models `image::open` + `dimensions()` (via
`generate_mask_from_image`), `save` models `rgb_mask.save(&mask_path)`,
and `inpaint` models the Bedrock inpainting round trip; the extra
`MaskIntensity` argument of `inpaint` lets the environment assign a
distinct outcome to each of the batch's calls (the calls are otherwise
identical except for the mask contents). -/
structure Env where
  decode : String → Except PipelineError (ℕ × ℕ)
  save : String → RgbMask → Except PipelineError Unit
  inpaint : InpaintCall → MaskIntensity → Except PipelineError (List ℕ)

/-- Result of one `visualize_custom_part` run: the returned value, the
final set of existing file paths, and the inpainting calls that were
issued. -/
structure VisualizeResult where
  result : Except PipelineError (List ℕ)
  fs : List String
  inpaintCalls : List InpaintCall

/-- Add a path to the file-system model. -/
def insertPath (p : String) (fs : List String) : List String :=
  if p ∈ fs then fs else p :: fs

/-- Remove a path from the file-system model. -/
def removePath (p : String) (fs : List String) : List String :=
  fs.filter (fun q => q ≠ p)

/-- `MotorcycleCustomizer::visualize_custom_part`
(src/custom/motorcycle.rs lines 48-105).  Step by step:
`generate_mask_from_image` decodes the base image (`?` propagates the
decode failure) and calls `create_part_mask` (always `Ok`); the mask is
converted with `to_rgb_mask` and saved at `temp_mask_<Debug>.png` (`?`
propagates the save failure, file not created); the prompt pair is built
and `inpaint` is awaited with `?` — on failure the function returns
WITHOUT reaching the cleanup on line 101; on success
`fs::remove_file(&mask_path)` deletes the artifact and the bytes are
returned. -/
def visualize_custom_part (R : ℕ) (k : ℤ → ℤ → ℚ) (env : Env)
    (fs0 : List String) (base : String) (c : PartType)
    (bikeDescription partDescription : String) (i : MaskIntensity) :
    VisualizeResult :=
  match env.decode base with
  | Except.error e => ⟨Except.error e, fs0, []⟩
  | Except.ok (w, h) =>
    match create_part_mask R k w h c i with
    | Except.error e => ⟨Except.error e, fs0, []⟩
    | Except.ok grayMask =>
      let maskPath := maskPathFor c
      match env.save maskPath (to_rgb_mask grayMask) with
      | Except.error e => ⟨Except.error e, fs0, []⟩
      | Except.ok _ =>
        let fs1 := insertPath maskPath fs0
        let call : InpaintCall :=
          ⟨base, maskPath,
            positivePrompt bikeDescription (partName c) partDescription,
            negativePromptText⟩
        match env.inpaint call i with
        | Except.error e => ⟨Except.error e, fs1, [call]⟩
        | Except.ok bytes => ⟨Except.ok bytes, removePath maskPath fs1, [call]⟩

/-- The value returned by a `visualize_custom_part` run, as a function of
the environment alone (the run's result does not depend on the
pre-existing file paths). -/
def visualizeOutcome (R : ℕ) (k : ℤ → ℤ → ℚ) (env : Env) (base : String)
    (c : PartType) (bikeDescription partDescription : String)
    (i : MaskIntensity) : Except PipelineError (List ℕ) :=
  match env.decode base with
  | Except.error e => Except.error e
  | Except.ok (w, h) =>
    match create_part_mask R k w h c i with
    | Except.error e => Except.error e
    | Except.ok grayMask =>
      match env.save (maskPathFor c) (to_rgb_mask grayMask) with
      | Except.error e => Except.error e
      | Except.ok _ =>
        env.inpaint
          ⟨base, maskPathFor c,
            positivePrompt bikeDescription (partName c) partDescription,
            negativePromptText⟩ i

/-- The canonical intensity order of the batch loop
(src/custom/motorcycle.rs lines 115-119). -/
def batchIntensities : List MaskIntensity :=
  [MaskIntensity.Minimal, MaskIntensity.Medium, MaskIntensity.Aggressive]

/-- `MotorcycleCustomizer::generate_options`
(src/custom/motorcycle.rs lines 108-143): iterate the three intensities in
order; on `Ok(image_data)` push `(intensity, image_data)`, on `Err` only
log; finally return `Ok(results)`. -/
def generate_options (R : ℕ) (k : ℤ → ℤ → ℚ) (env : Env) (fs0 : List String)
    (base : String) (c : PartType)
    (bikeDescription partDescription : String) :
    Except PipelineError (List (MaskIntensity × List ℕ)) × List String :=
  let final := batchIntensities.foldl
    (fun (acc : List (MaskIntensity × List ℕ) × List String) i =>
      let r := visualize_custom_part R k env acc.2 base c bikeDescription
        partDescription i
      match r.result with
      | Except.ok bytes => (acc.1 ++ [(i, bytes)], r.fs)
      | Except.error _ => (acc.1, r.fs))
    ([], fs0)
  (Except.ok final.1, final.2)

/-! ## Concrete environments and kernels used by witnesses and counterexamples -/

/-- The trivial all-ones kernel of radius 0 (a concrete nonnegative blur
kernel; with radius 0 it acts as the identity before rounding). -/
def kOne : ℤ → ℤ → ℚ := fun _ _ => 1

/-! ## Claims about the mask rasterizer -/

/-- C3 counterexample: the claim says `create_part_mask` fails with a
`GeometryError` when the width is zero, but the source has no such check
and no failure path at all: at width 0 it still returns `Ok`. -/
theorem create_part_mask_ok_on_zero_width :
    ∃ m, create_part_mask 0 kOne 0 5 PartType.Seat MaskIntensity.Medium =
      Except.ok m :=
  ⟨_, rfl⟩

/-- C3 (amended): `create_part_mask` never fails: every width and height
(zero included), every part category and every intensity produce an `Ok`
mask — the source body has no error path (src/util/image_mask.rs lines
25-93 always reach `Ok(blurred_mask)`). -/
theorem create_part_mask_never_fails :
    ∀ (R : ℕ) (k : ℤ → ℤ → ℚ) (w h : ℕ) (c : PartType) (i : MaskIntensity),
      ∃ m, create_part_mask R k w h c i = Except.ok m :=
  fun _ _ _ _ _ _ => ⟨_, rfl⟩

/-- C4 counterexample: the claimed pre-blur ellipse center (512, 461) for
`rasterize(1024, 1024, Seat, Medium)` is wrong: the source casts
`1024 * 0.45 = 460.8` to `i32` by truncation, giving 460. -/
theorem seat_center_not_461 :
    partCenter 1024 1024 PartType.Seat ≠ (512, 461) := by
  norm_num [partCenter, resolveTemplate, i32trunc]

/-- C4 (amended): rasterizing at 1024×1024 for Seat at Medium intensity
computes, before blur, the real-valued center ordinate 460.8 and radii
153.6 and 122.88 from the template (0.50, 0.45, 0.15, 0.12) and scale 1.0,
and the `as i32` casts truncate these to the absolute center (512, 460)
and radii (153, 122). -/
theorem seat_medium_geometry_1024 :
    (1024 : ℚ) * (resolveTemplate PartType.Seat).cy = 460.8 ∧
    partCenter 1024 1024 PartType.Seat = (512, 460) ∧
    (1024 : ℚ) * (resolveTemplate PartType.Seat).rx *
      intensityScale MaskIntensity.Medium = 153.6 ∧
    (1024 : ℚ) * (resolveTemplate PartType.Seat).ry *
      intensityScale MaskIntensity.Medium = 122.88 ∧
    partRadii 1024 1024 PartType.Seat MaskIntensity.Medium = (153, 122) := by
  refine ⟨?_, ?_, ?_, ?_, ?_⟩ <;>
    norm_num [partCenter, partRadii, resolveTemplate, intensityScale, i32trunc]

/-- C5 (confirmed): with `feather_radius = 0` the blur branch of
`create_custom_mask` is skipped (the returned mask is the raw ellipse
fill) and every pixel value is exactly 0 or exactly 255. -/
theorem custom_mask_zero_feather_binary :
    ∀ (R : ℕ) (k : ℤ → ℤ → ℚ) (w h : ℕ) (rx ry rw rh : ℚ),
      ∃ m, create_custom_mask R k w h rx ry rw rh 0 = Except.ok m ∧
        m = fillEllipse w h (i32trunc ((w : ℚ) * rx)) (i32trunc ((h : ℚ) * ry))
              (i32trunc ((w : ℚ) * rw)) (i32trunc ((h : ℚ) * rh)) ∧
        ∀ x y, m.pixel x y = 0 ∨ m.pixel x y = 255 := by
  intro R k w h rx ry rw rh
  refine ⟨_, ?_, rfl, ?_⟩
  · simp [create_custom_mask]
  · intro x y
    unfold fillEllipse
    dsimp only
    split_ifs with hc
    · right; rfl
    · left; rfl

/-- C7 (confirmed): category-to-template resolution is a total function
(hence deterministic) and reproduces the canonical normalized table
exactly: Exhaust (0.50, 0.65, 0.35, 0.25), Seat (0.50, 0.45, 0.15, 0.12),
Handlebar (0.40, 0.25, 0.20, 0.12). -/
theorem resolveTemplate_canonical :
    resolveTemplate PartType.Exhaust = ⟨0.50, 0.65, 0.35, 0.25⟩ ∧
    resolveTemplate PartType.Seat = ⟨0.50, 0.45, 0.15, 0.12⟩ ∧
    resolveTemplate PartType.Handlebar = ⟨0.40, 0.25, 0.20, 0.12⟩ := by
  refine ⟨?_, ?_, ?_⟩ <;> norm_num [resolveTemplate]

/-- C8 (confirmed): the intensity scales are exactly 0.8, 1.0 and 1.2; the
scale multiplies only the two radii (`partRadii`); and the mask built by
`create_part_mask` places its ellipse at `partCenter`, which takes no
intensity argument at all — the center is computed independently of the
intensity for every category and canvas size. -/
theorem intensity_scale_radii_only :
    (intensityScale MaskIntensity.Minimal = 0.8 ∧
     intensityScale MaskIntensity.Medium = 1.0 ∧
     intensityScale MaskIntensity.Aggressive = 1.2) ∧
    (∀ (w h : ℕ) (c : PartType) (i : MaskIntensity),
      partRadii w h c i =
        (i32trunc ((w : ℚ) * (resolveTemplate c).rx * intensityScale i),
         i32trunc ((h : ℚ) * (resolveTemplate c).ry * intensityScale i))) ∧
    (∀ (R : ℕ) (k : ℤ → ℤ → ℚ) (w h : ℕ) (c : PartType) (i : MaskIntensity),
      partMask R k w h c i =
        gaussianBlurModel R k
          (fillEllipse w h (partCenter w h c).1 (partCenter w h c).2
            (partRadii w h c i).1 (partRadii w h c i).2)) :=
  ⟨⟨by norm_num [intensityScale], by norm_num [intensityScale],
    by norm_num [intensityScale]⟩,
   fun _ _ _ _ => rfl, fun _ _ _ _ _ _ => rfl⟩

/-! ## Claims about the visualization orchestrator -/

/-- Environment in which the image decodes and the mask saves but the
inpainting service fails. -/
def envInpaintFail : Env :=
  { decode := fun _ => Except.ok (1024, 1024)
    save := fun _ _ => Except.ok ()
    inpaint := fun _ _ => Except.error PipelineError.serviceError }

/-- Environment in which every collaborator succeeds (the inpainting
service returns the byte [7]). -/
def envAllOk : Env :=
  { decode := fun _ => Except.ok (1024, 1024)
    save := fun _ _ => Except.ok ()
    inpaint := fun _ _ => Except.ok [7] }

/-- Environment in which all three inpainting calls fail. -/
def envAllFail : Env :=
  { decode := fun _ => Except.ok (64, 64)
    save := fun _ _ => Except.ok ()
    inpaint := fun _ _ => Except.error PipelineError.serviceError }

/-- C1 counterexample: the claim says the temporary mask artifact is
deleted on every exit path, but when the inpainting call fails the `?` on
the `inpaint` call (src/custom/motorcycle.rs line 98) returns before the
cleanup on line 101: the artifact path still exists after the call. -/
theorem visualize_leaves_artifact_on_inpaint_failure :
    "temp_mask_Seat.png" ∈
      (visualize_custom_part 0 kOne envInpaintFail [] "base.jpg" PartType.Seat
        "bike" "part" MaskIntensity.Medium).fs := by
  decide

/-- C1 (amended): the temporary mask artifact is deleted only on the
success path: whenever `visualize_custom_part` returns `Ok`, the artifact
path no longer exists afterwards; when the inpainting call fails the file
is left behind (see the counterexample). -/
theorem visualize_cleanup_on_success (R : ℕ) (k : ℤ → ℤ → ℚ) (env : Env)
    (fs0 : List String) (base : String) (c : PartType) (bike part : String)
    (i : MaskIntensity) (bytes : List ℕ)
    (hres : (visualize_custom_part R k env fs0 base c bike part i).result =
      Except.ok bytes) :
    maskPathFor c ∉
      (visualize_custom_part R k env fs0 base c bike part i).fs := by
  unfold visualize_custom_part at hres ⊢
  rcases hde : env.decode base with e | ⟨w, h⟩ <;> simp only [hde] at hres ⊢
  · simp at hres
  · simp only [create_part_mask] at hres ⊢
    rcases hsv : env.save (maskPathFor c) (to_rgb_mask (partMask R k w h c i))
        with e | u <;> simp only [hsv] at hres ⊢
    · simp at hres
    · rcases hip : env.inpaint _ i with e | b <;> simp only [hip] at hres ⊢
      · simp at hres
      · simp [removePath]

/-- C1 witness: in the all-success environment the call returns `Ok [7]`
and the artifact path does not exist afterwards. -/
theorem visualize_cleanup_on_success_witness :
    (visualize_custom_part 0 kOne envAllOk [] "base.jpg" PartType.Seat "bike"
        "part" MaskIntensity.Medium).result = Except.ok [7] ∧
    maskPathFor PartType.Seat ∉
      (visualize_custom_part 0 kOne envAllOk [] "base.jpg" PartType.Seat "bike"
        "part" MaskIntensity.Medium).fs :=
  ⟨rfl, visualize_cleanup_on_success 0 kOne envAllOk [] "base.jpg" PartType.Seat
    "bike" "part" MaskIntensity.Medium [7] rfl⟩

/-- C9 (confirmed): every inpainting invocation issued by
`visualize_custom_part` carries the positive prompt obtained by
interpolating the bike description, the mapped part name and the part
description into the fixed template, and the fixed negative prompt
verbatim; the part-name mapping is Exhaust to "exhaust system", Seat to
"seat", Handlebar to "handlebars". -/
theorem inpaint_prompt_spec (R : ℕ) (k : ℤ → ℤ → ℚ) (env : Env)
    (fs0 : List String) (base : String) (c : PartType) (bike part : String)
    (i : MaskIntensity) (call : InpaintCall)
    (hmem : call ∈
      (visualize_custom_part R k env fs0 base c bike part i).inpaintCalls) :
    call.prompt = bike ++ " style motorcycle with custom " ++ partName c ++
      " installed, " ++ part ++
      ", seamlessly integrated aftermarket part, maintaining original frame geometry and proportions, professional product photography, photorealistic, high detail, studio lighting, 8k" ∧
    call.negativePrompt =
      "different motorcycle model, changed body style, distorted proportions, unrealistic, blurry, low quality, cartoon, 3d render, wrong bike type, illustration" ∧
    partName PartType.Exhaust = "exhaust system" ∧
    partName PartType.Seat = "seat" ∧
    partName PartType.Handlebar = "handlebars" := by
  unfold visualize_custom_part at hmem
  rcases hde : env.decode base with e | ⟨w, h⟩ <;> simp only [hde] at hmem
  · simp at hmem
  · simp only [create_part_mask] at hmem
    rcases hsv : env.save (maskPathFor c) (to_rgb_mask (partMask R k w h c i))
        with e | u <;> simp only [hsv] at hmem
    · simp at hmem
    · rcases hip : env.inpaint
          ⟨base, maskPathFor c, positivePrompt bike (partName c) part,
            negativePromptText⟩ i with e | b <;>
        rw [hip] at hmem <;>
        · simp only [List.mem_singleton] at hmem
          subst hmem
          exact ⟨rfl, rfl, rfl, rfl, rfl⟩

/-- C9 witness: in the all-success environment the single issued call
carries exactly the interpolated positive prompt and the fixed negative
prompt. -/
theorem inpaint_prompt_spec_witness :
    ((⟨"base.jpg", maskPathFor PartType.Exhaust,
        positivePrompt "sport" (partName PartType.Exhaust) "chrome",
        negativePromptText⟩ : InpaintCall) ∈
      (visualize_custom_part 0 kOne envAllOk [] "base.jpg" PartType.Exhaust
        "sport" "chrome" MaskIntensity.Medium).inpaintCalls) ∧
    ((⟨"base.jpg", maskPathFor PartType.Exhaust,
        positivePrompt "sport" (partName PartType.Exhaust) "chrome",
        negativePromptText⟩ : InpaintCall).prompt =
      "sport" ++ " style motorcycle with custom " ++ partName PartType.Exhaust ++
      " installed, " ++ "chrome" ++
      ", seamlessly integrated aftermarket part, maintaining original frame geometry and proportions, professional product photography, photorealistic, high detail, studio lighting, 8k" ∧
    (⟨"base.jpg", maskPathFor PartType.Exhaust,
        positivePrompt "sport" (partName PartType.Exhaust) "chrome",
        negativePromptText⟩ : InpaintCall).negativePrompt =
      "different motorcycle model, changed body style, distorted proportions, unrealistic, blurry, low quality, cartoon, 3d render, wrong bike type, illustration" ∧
    partName PartType.Exhaust = "exhaust system" ∧
    partName PartType.Seat = "seat" ∧
    partName PartType.Handlebar = "handlebars") :=
  ⟨List.mem_singleton.mpr rfl,
   inpaint_prompt_spec 0 kOne envAllOk [] "base.jpg" PartType.Exhaust "sport"
     "chrome" MaskIntensity.Medium _ (List.mem_singleton.mpr rfl)⟩

/-- The result of a `visualize_custom_part` run does not depend on the
pre-existing file paths: it equals `visualizeOutcome` of the environment. -/
lemma visualize_result_eq (R : ℕ) (k : ℤ → ℤ → ℚ) (env : Env)
    (fs0 : List String) (base : String) (c : PartType) (bike part : String)
    (i : MaskIntensity) :
    (visualize_custom_part R k env fs0 base c bike part i).result =
      visualizeOutcome R k env base c bike part i := by
  unfold visualize_custom_part visualizeOutcome
  rcases hde : env.decode base with e | ⟨w, h⟩ <;> simp only [hde]
  simp only [create_part_mask]
  rcases hsv : env.save (maskPathFor c) (to_rgb_mask (partMask R k w h c i))
      with e | u <;> simp only [hsv]
  rcases hip : env.inpaint _ i with e | b <;> simp only [hip]

/-- The batch returns `Ok` of exactly the successful intensities' entries,
in the canonical order. -/
lemma generate_options_characterization (R : ℕ) (k : ℤ → ℤ → ℚ) (env : Env)
    (fs0 : List String) (base : String) (c : PartType) (bike part : String) :
    (generate_options R k env fs0 base c bike part).1 =
      Except.ok (batchIntensities.filterMap (fun i =>
        match visualizeOutcome R k env base c bike part i with
        | Except.ok bytes => some (i, bytes)
        | Except.error _ => none)) := by
  unfold generate_options batchIntensities
  rcases h1 : visualizeOutcome R k env base c bike part MaskIntensity.Minimal
      with e1 | b1 <;>
    rcases h2 : visualizeOutcome R k env base c bike part MaskIntensity.Medium
      with e2 | b2 <;>
    rcases h3 : visualizeOutcome R k env base c bike part
        MaskIntensity.Aggressive with e3 | b3 <;>
    simp [List.foldl, List.filterMap, visualize_result_eq, h1, h2, h3]

/-- C2 counterexample: when all three inpainting calls fail,
`generate_options` returns `Ok []` — zero outcome entries, not the claimed
three (failures are not recorded in their slots). -/
theorem generate_options_empty_when_all_fail :
    (generate_options 0 kOne envAllFail [] "base.jpg" PartType.Seat "bike"
      "part").1 = Except.ok [] := by
  rfl

/-- C2 (amended): `generate_options` always runs all three intensities in
the fixed order [Minimal, Medium, Aggressive] — a failure on one intensity
does not prevent the remaining intensities from running — but a failed
intensity is omitted from the returned list rather than recorded in its
slot, so the batch returns between 0 and 3 entries: exactly the successful
intensities, in order. -/
theorem generate_options_successful_entries_in_order (R : ℕ)
    (k : ℤ → ℤ → ℚ) (env : Env) (fs0 : List String) (base : String)
    (c : PartType) (bike part : String) :
    ∃ l, (generate_options R k env fs0 base c bike part).1 = Except.ok l ∧
      l.map Prod.fst = batchIntensities.filter (fun i =>
        match visualizeOutcome R k env base c bike part i with
        | Except.ok _ => true
        | Except.error _ => false) ∧
      l.length ≤ 3 := by
  refine ⟨_, generate_options_characterization R k env fs0 base c bike part,
    ?_, ?_⟩ <;>
    · unfold batchIntensities
      rcases h1 : visualizeOutcome R k env base c bike part
          MaskIntensity.Minimal with e1 | b1 <;>
        rcases h2 : visualizeOutcome R k env base c bike part
            MaskIntensity.Medium with e2 | b2 <;>
        rcases h3 : visualizeOutcome R k env base c bike part
            MaskIntensity.Aggressive with e3 | b3 <;>
        simp [List.filterMap, List.filter, h1, h2, h3]

/-- C10 (confirmed): `generate_options` never returns an error: whatever
combination of the three per-intensity attempts fails, the outer result is
`Ok` of exactly the successful intensities' `(intensity, bytes)` pairs,
failed intensities silently omitted, in the order Minimal, Medium,
Aggressive. -/
theorem generate_options_never_errors (R : ℕ) (k : ℤ → ℤ → ℚ) (env : Env)
    (fs0 : List String) (base : String) (c : PartType) (bike part : String) :
    (generate_options R k env fs0 base c bike part).1 =
      Except.ok (batchIntensities.filterMap (fun i =>
        match visualizeOutcome R k env base c bike part i with
        | Except.ok bytes => some (i, bytes)
        | Except.error _ => none)) :=
  generate_options_characterization R k env fs0 base c bike part

/-! ## Coverage monotonicity in the intensity (claim C6) -/

lemma i32trunc_nonneg (q : ℚ) (hq : 0 ≤ q) : 0 ≤ i32trunc q := by
  unfold i32trunc
  rw [if_neg (not_lt.mpr hq)]
  exact Int.floor_nonneg.mpr hq

lemma i32trunc_mono (a b : ℚ) (ha : 0 ≤ a) (hab : a ≤ b) :
    i32trunc a ≤ i32trunc b := by
  unfold i32trunc
  rw [if_neg (not_lt.mpr ha), if_neg (not_lt.mpr (le_trans ha hab))]
  exact Int.floor_mono hab

/-- Growing both radii of a (possibly degenerate) ellipse keeps every point
of the smaller ellipse inside the larger one: the core inequality. -/
lemma ellipse_ineq (dx dy rw1 rh1 rw2 rh2 : ℤ)
    (hrw1 : 0 ≤ rw1) (hrh1 : 0 ≤ rh1) (h12w : rw1 ≤ rw2) (h12h : rh1 ≤ rh2)
    (h1 : dx ^ 2 * rh1 ^ 2 + dy ^ 2 * rw1 ^ 2 ≤ rw1 ^ 2 * rh1 ^ 2)
    (h2 : dx ^ 2 ≤ rw1 ^ 2) (h3 : dy ^ 2 ≤ rh1 ^ 2) :
    dx ^ 2 * rh2 ^ 2 + dy ^ 2 * rw2 ^ 2 ≤ rw2 ^ 2 * rh2 ^ 2 := by
  have hA : rw1 ^ 2 ≤ rw2 ^ 2 := pow_le_pow_left₀ hrw1 h12w 2
  have hB : rh1 ^ 2 ≤ rh2 ^ 2 := pow_le_pow_left₀ hrh1 h12h 2
  rcases eq_or_lt_of_le hrw1 with hw0 | hwpos
  · have hdx : dx ^ 2 = 0 := by
      have hz : rw1 ^ 2 = 0 := by rw [← hw0]; ring
      exact le_antisymm (hz ▸ h2) (sq_nonneg dx)
    have hdy2 : dy ^ 2 ≤ rh2 ^ 2 := le_trans h3 hB
    nlinarith [mul_le_mul_of_nonneg_left hdy2 (sq_nonneg rw2)]
  · rcases eq_or_lt_of_le hrh1 with hh0 | hhpos
    · have hdy : dy ^ 2 = 0 := by
        have hz : rh1 ^ 2 = 0 := by rw [← hh0]; ring
        exact le_antisymm (hz ▸ h3) (sq_nonneg dy)
      have hdx2 : dx ^ 2 ≤ rw2 ^ 2 := le_trans h2 hA
      nlinarith [mul_le_mul_of_nonneg_left hdx2 (sq_nonneg rh2)]
    · have hABpos : (0 : ℤ) < rw1 ^ 2 * rh1 ^ 2 :=
        mul_pos (pow_pos hwpos 2) (pow_pos hhpos 2)
      have t1 : dx ^ 2 * rh2 ^ 2 * (rw1 ^ 2 * rh1 ^ 2) ≤
          dx ^ 2 * rh1 ^ 2 * (rw2 ^ 2 * rh2 ^ 2) := by
        nlinarith [mul_le_mul_of_nonneg_left hA
          (mul_nonneg (sq_nonneg dx) (mul_nonneg (sq_nonneg rh1) (sq_nonneg rh2)))]
      have t2 : dy ^ 2 * rw2 ^ 2 * (rw1 ^ 2 * rh1 ^ 2) ≤
          dy ^ 2 * rw1 ^ 2 * (rw2 ^ 2 * rh2 ^ 2) := by
        nlinarith [mul_le_mul_of_nonneg_left hB
          (mul_nonneg (sq_nonneg dy) (mul_nonneg (sq_nonneg rw1) (sq_nonneg rw2)))]
      have t3 : (dx ^ 2 * rh1 ^ 2 + dy ^ 2 * rw1 ^ 2) * (rw2 ^ 2 * rh2 ^ 2) ≤
          rw1 ^ 2 * rh1 ^ 2 * (rw2 ^ 2 * rh2 ^ 2) :=
        mul_le_mul_of_nonneg_right h1
          (mul_nonneg (sq_nonneg rw2) (sq_nonneg rh2))
      have key : (dx ^ 2 * rh2 ^ 2 + dy ^ 2 * rw2 ^ 2) * (rw1 ^ 2 * rh1 ^ 2) ≤
          rw2 ^ 2 * rh2 ^ 2 * (rw1 ^ 2 * rh1 ^ 2) := by nlinarith [t1, t2, t3]
      exact le_of_mul_le_mul_right key hABpos

lemma insideEllipse_mono (cx cy rw1 rh1 rw2 rh2 px py : ℤ)
    (hrw1 : 0 ≤ rw1) (hrh1 : 0 ≤ rh1) (h12w : rw1 ≤ rw2) (h12h : rh1 ≤ rh2)
    (hin : insideEllipse cx cy rw1 rh1 px py = true) :
    insideEllipse cx cy rw2 rh2 px py = true := by
  simp only [insideEllipse, Bool.and_eq_true, decide_eq_true_eq] at hin ⊢
  obtain ⟨⟨h1, h2⟩, h3⟩ := hin
  exact ⟨⟨ellipse_ineq _ _ _ _ _ _ hrw1 hrh1 h12w h12h h1 h2 h3,
    le_trans h2 (pow_le_pow_left₀ hrw1 h12w 2)⟩,
    le_trans h3 (pow_le_pow_left₀ hrh1 h12h 2)⟩

lemma fillEllipse_pixel_le (w h : ℕ) (cx cy rw1 rh1 rw2 rh2 : ℤ)
    (hrw1 : 0 ≤ rw1) (hrh1 : 0 ≤ rh1) (h12w : rw1 ≤ rw2) (h12h : rh1 ≤ rh2)
    (x y : ℕ) :
    (fillEllipse w h cx cy rw1 rh1).pixel x y ≤
      (fillEllipse w h cx cy rw2 rh2).pixel x y := by
  unfold fillEllipse
  dsimp only
  split_ifs with hc1 hc2
  · exact le_refl _
  · exact absurd ⟨hc1.1, hc1.2.1,
      insideEllipse_mono _ _ _ _ _ _ _ _ hrw1 hrh1 h12w h12h hc1.2.2⟩ hc2
  · exact Nat.zero_le _
  · exact Nat.zero_le _

lemma pixelClamped_le (m1 m2 : Mask) (hw : m1.width = m2.width)
    (hh : m1.height = m2.height)
    (hp : ∀ x y, m1.pixel x y ≤ m2.pixel x y) (x y : ℤ) :
    pixelClamped m1 x y ≤ pixelClamped m2 x y := by
  unfold pixelClamped
  rw [hw, hh]
  split_ifs with hcond
  · exact le_refl 0
  · exact hp _ _

lemma gaussianBlur_pixel_le (R : ℕ) (k : ℤ → ℤ → ℚ)
    (hk : ∀ a b, 0 ≤ k a b) (m1 m2 : Mask) (hw : m1.width = m2.width)
    (hh : m1.height = m2.height)
    (hp : ∀ x y, m1.pixel x y ≤ m2.pixel x y) (x y : ℕ) :
    (gaussianBlurModel R k m1).pixel x y ≤
      (gaussianBlurModel R k m2).pixel x y := by
  unfold gaussianBlurModel clamp255
  dsimp only
  have hsum : (Finset.range (2 * R + 1)).sum (fun dx =>
      (Finset.range (2 * R + 1)).sum (fun dy =>
        k ((dx : ℤ) - R) ((dy : ℤ) - R) *
          (pixelClamped m1 ((x : ℤ) + dx - R) ((y : ℤ) + dy - R) : ℚ))) ≤
      (Finset.range (2 * R + 1)).sum (fun dx =>
      (Finset.range (2 * R + 1)).sum (fun dy =>
        k ((dx : ℤ) - R) ((dy : ℤ) - R) *
          (pixelClamped m2 ((x : ℤ) + dx - R) ((y : ℤ) + dy - R) : ℚ))) := by
    refine Finset.sum_le_sum (fun dx _ => Finset.sum_le_sum (fun dy _ => ?_))
    refine mul_le_mul_of_nonneg_left ?_ (hk _ _)
    exact_mod_cast pixelClamped_le m1 m2 hw hh hp _ _
  exact min_le_min (le_refl 255)
    (Int.toNat_le_toNat (Int.floor_mono (add_le_add_right hsum _)))

lemma coverage_le_of_pixel_le (m1 m2 : Mask) (hw : m1.width = m2.width)
    (hh : m1.height = m2.height)
    (hp : ∀ x y, m1.pixel x y ≤ m2.pixel x y) :
    coverage m1 ≤ coverage m2 := by
  unfold coverage
  rw [hw, hh]
  apply Finset.card_le_card
  intro p hmem
  simp only [Finset.mem_filter] at hmem ⊢
  exact ⟨hmem.1, lt_of_lt_of_le hmem.2 (hp p.1 p.2)⟩

lemma template_radii_nonneg (c : PartType) :
    0 ≤ (resolveTemplate c).rx ∧ 0 ≤ (resolveTemplate c).ry := by
  cases c <;> norm_num [resolveTemplate]

/-- Coverage of the blurred part mask grows with the intensity scale, for
any nonnegative blur kernel: larger scale means componentwise larger
truncated radii, hence a superset ellipse fill, hence pointwise larger
blurred values, hence at least as many pixels above the threshold. -/
lemma partMask_coverage_le (R : ℕ) (k : ℤ → ℤ → ℚ)
    (hk : ∀ a b, 0 ≤ k a b) (w h : ℕ) (c : PartType) (i1 i2 : MaskIntensity)
    (hs0 : 0 ≤ intensityScale i1)
    (hs : intensityScale i1 ≤ intensityScale i2) :
    coverage (partMask R k w h c i1) ≤ coverage (partMask R k w h c i2) := by
  have hrx : (0 : ℚ) ≤ (w : ℚ) * (resolveTemplate c).rx :=
    mul_nonneg (Nat.cast_nonneg w) (template_radii_nonneg c).1
  have hry : (0 : ℚ) ≤ (h : ℚ) * (resolveTemplate c).ry :=
    mul_nonneg (Nat.cast_nonneg h) (template_radii_nonneg c).2
  apply coverage_le_of_pixel_le (partMask R k w h c i1) (partMask R k w h c i2)
    rfl rfl
  intro x y
  apply gaussianBlur_pixel_le R k hk
    (fillEllipse w h (partCenter w h c).1 (partCenter w h c).2
      (partRadii w h c i1).1 (partRadii w h c i1).2)
    (fillEllipse w h (partCenter w h c).1 (partCenter w h c).2
      (partRadii w h c i2).1 (partRadii w h c i2).2)
    rfl rfl _ x y
  intro x y
  apply fillEllipse_pixel_le
  · exact i32trunc_nonneg _ (mul_nonneg hrx hs0)
  · exact i32trunc_nonneg _ (mul_nonneg hry hs0)
  · exact i32trunc_mono _ _ (mul_nonneg hrx hs0)
      (mul_le_mul_of_nonneg_left hs hrx)
  · exact i32trunc_mono _ _ (mul_nonneg hry hs0)
      (mul_le_mul_of_nonneg_left hs hry)

/-- C6 (confirmed): for every fixed category and canvas size (both
dimensions at least 1) and every nonnegative blur kernel, the coverage
area of the mask produced by `create_part_mask` — the number of canvas
pixels whose value exceeds 128 — is non-decreasing as the intensity moves
Minimal, Medium, Aggressive. -/
theorem coverage_monotone_in_intensity (R : ℕ) (k : ℤ → ℤ → ℚ)
    (hk : ∀ a b, 0 ≤ k a b) (w h : ℕ) (hw : 1 ≤ w) (hh : 1 ≤ h)
    (c : PartType) :
    coverage (partMask R k w h c MaskIntensity.Minimal) ≤
      coverage (partMask R k w h c MaskIntensity.Medium) ∧
    coverage (partMask R k w h c MaskIntensity.Medium) ≤
      coverage (partMask R k w h c MaskIntensity.Aggressive) :=
  ⟨partMask_coverage_le R k hk w h c _ _ (by norm_num [intensityScale])
      (by norm_num [intensityScale]),
   partMask_coverage_le R k hk w h c _ _ (by norm_num [intensityScale])
      (by norm_num [intensityScale])⟩

/-- C6 witness: the monotonicity instantiated at the all-ones radius-0
kernel, an 8×8 canvas and the Seat category. -/
theorem coverage_monotone_in_intensity_witness :
    (∀ a b : ℤ, (0 : ℚ) ≤ kOne a b) ∧ (1 : ℕ) ≤ 8 ∧ (1 : ℕ) ≤ 8 ∧
    (coverage (partMask 0 kOne 8 8 PartType.Seat MaskIntensity.Minimal) ≤
      coverage (partMask 0 kOne 8 8 PartType.Seat MaskIntensity.Medium) ∧
    coverage (partMask 0 kOne 8 8 PartType.Seat MaskIntensity.Medium) ≤
      coverage (partMask 0 kOne 8 8 PartType.Seat MaskIntensity.Aggressive)) :=
  ⟨fun a b => by norm_num [kOne], by norm_num, by norm_num,
   coverage_monotone_in_intensity 0 kOne (fun a b => by norm_num [kOne]) 8 8
     (by norm_num) (by norm_num) PartType.Seat⟩

end Zephyr
